import Mathlib

/-
Verification development for the SEO audit backend (src/api/audit.js).

The analysis pipeline of the POST /api/analyze handler is embedded as pure
Lean functions.  External collaborators are parameterized:
  * cheerio DOM query results enter as a `DomFacts` record (the DOM parser is
    an off-the-shelf library, outside this repository);
  * every auxiliary network fetch (security-header HEAD probe, robots.txt,
    sitemap.xml, per-image HEAD probes) enters as an explicit result value;
  * JavaScript string/regex builtins used by the source are modelled on
    `List Char` (ASCII case folding), following the exact regexes that the
    source applies to the raw HTML text.
Numbers are embedded as Nat/Int, and the floating-point score arithmetic as
exact rationals (all realizable inputs are small integers, where JS doubles
agree with exact arithmetic).
-/

namespace SeoAudit

/-! ### Models of the JavaScript string builtins used by audit.js -/

/-- Model of the characters matched by the regex class `\s` (ASCII range),
used by `split(/\s+/)`, `trim()` and the trailing-separator regex. -/
def isJsSpace (c : Char) : Bool :=
  c = ' ' || c = '\t' || c = '\n' || c = '\r' || c = '\x0b' || c = '\x0c'

/-- Case-insensitive character comparison (the `i` regex flag). -/
def lcEq (a b : Char) : Bool := a.toLower = b.toLower

/-- Case-insensitive test that `pat` starts the list `l`. -/
def lcLeads : List Char → List Char → Bool
  | [], _ => true
  | _ :: _, [] => false
  | p :: ps, c :: cs => lcEq p c && lcLeads ps cs

/-- Model of `String.prototype.includes` (case-sensitive substring test). -/
def seqInside (pat : List Char) : List Char → Bool
  | [] => pat.isEmpty
  | c :: rest => pat.isPrefixOf (c :: rest) || seqInside pat rest

/-- Model of `s.includes(pat)`. -/
def jsIncludes (s pat : String) : Bool := seqInside pat.toList s.toList

/-- Model of `s.startsWith(pre)`. -/
def jsStartsWith (s pre : String) : Bool := pre.toList.isPrefixOf s.toList

/-- Model of `s.trim()`: drop whitespace from both ends. -/
def jsTrim (l : List Char) : List Char :=
  ((l.dropWhile isJsSpace).reverse.dropWhile isJsSpace).reverse

/-- Model of `s.toLowerCase()` (ASCII case folding). -/
def lcList (l : List Char) : List Char := l.map Char.toLower

/-- Model of `s.split('\n')`. -/
def jsLines : List Char → List (List Char)
  | [] => [[]]
  | c :: rest =>
    if c = '\n' then [] :: jsLines rest
    else
      match jsLines rest with
      | [] => [[c]]
      | t :: ts => (c :: t) :: ts

/-- Model of `s.split(/\s+/)`: split at maximal whitespace runs, keeping the
empty fragments JS produces at the two ends.  Fuelled structural recursion;
the fuel `l.length` is always sufficient because every step consumes at
least one character. -/
def splitWsAux : ℕ → List Char → List (List Char)
  | _, [] => [[]]
  | 0, l => [l]
  | fuel + 1, c :: rest =>
    if isJsSpace c then
      [] :: splitWsAux fuel (rest.dropWhile isJsSpace)
    else
      match splitWsAux fuel rest with
      | [] => [[c]]
      | t :: ts => (c :: t) :: ts

/-- Model of `s.split(/\s+/)`. -/
def jsSplitWs (l : List Char) : List (List Char) := splitWsAux l.length l

/-- Join a list of strings with `", "` — model of `Array.prototype.join(', ')`. -/
def joinComma : List String → String
  | [] => ""
  | [s] => s
  | s :: rest => s ++ ", " ++ joinComma rest

/-! ### The heading regexes of audit.js (lines 178–299)

The source counts `<hN ...>...</hN>` spans with the regex
`/<hN[^>]*>[\s\S]*?<\/hN>/gi`.  The scanner below implements exactly those
semantics: at each position try to match the opening tag (`<hN` case
insensitively, then greedily any non-`>` characters, then `>`), then lazily
search for the first closing `</hN>`; on success the whole span is one match
and scanning resumes after it, otherwise scanning advances one character. -/

/-- Case-insensitive literal match of `tag`; returns the rest of the input. -/
def matchChars (tag : List Char) : List Char → Option (List Char)
  | l =>
    match tag, l with
    | [], rest => some rest
    | _ :: _, [] => none
    | t :: ts, c :: cs => if lcEq t c then matchChars ts cs else none

/-- The `[^>]*>` part of the opening-tag regex: consume up to and including
the first `>`, failing if none exists. -/
def skipToGt : List Char → Option (List Char)
  | [] => none
  | c :: rest => if c = '>' then some rest else skipToGt rest

/-- Match `<TAG[^>]*>` at the head of the input (case-insensitive). -/
def matchOpenTag (tag : List Char) : List Char → Option (List Char)
  | [] => none
  | c :: rest =>
    if c = '<' then
      match matchChars tag rest with
      | some r => skipToGt r
      | none => none
    else none

/-- Match `</TAG>` at the head of the input (case-insensitive). -/
def matchCloseAt (tag : List Char) : List Char → Option (List Char)
  | '<' :: '/' :: rest =>
    match matchChars tag rest with
    | some ('>' :: r) => some r
    | _ => none
  | _ => none

/-- The lazy `[\s\S]*?</TAG>` part: find the first closing tag, returning
the input remaining after it. -/
def findCloseTag (tag : List Char) : List Char → Option (List Char)
  | [] => none
  | c :: rest =>
    match matchCloseAt tag (c :: rest) with
    | some r => some r
    | none => findCloseTag tag rest

/-- Try the whole heading regex at the head of the input; on success return
the matched span and the remaining input. -/
def fullMatchAt (tag : List Char) (l : List Char) : Option (List Char × List Char) :=
  match matchOpenTag tag l with
  | none => none
  | some mid =>
    match findCloseTag tag mid with
    | none => none
    | some after => some (l.take (l.length - after.length), after)

/-- Global scan (`g` flag): collect all matches left to right.  Fuelled;
`l.length` fuel is always sufficient since every step consumes at least one
character. -/
def tagScanF (tag : List Char) : ℕ → List Char → List (List Char)
  | _, [] => []
  | 0, _ => []
  | fuel + 1, c :: rest =>
    match fullMatchAt tag (c :: rest) with
    | some (m, after) => m :: tagScanF tag fuel after
    | none => tagScanF tag fuel rest

/-- All matches of `/<TAG[^>]*>[\s\S]*?<\/TAG>/gi` in a string
(the `hNMatches` arrays of audit.js). -/
def tagMatches (tag : List Char) (html : String) : List (List Char) :=
  tagScanF tag html.toList.length html.toList

/-- After `<!--`, lazily find the first `-->` and return what follows it. -/
def dropToCommentEnd : List Char → Option (List Char)
  | [] => none
  | '-' :: '-' :: '>' :: rest => some rest
  | _ :: rest => dropToCommentEnd rest

/-- Model of `htmlContent.replace(/<!--[\s\S]*?-->/g, '')` (audit.js line
236): remove every HTML comment span.  Fuelled; `l.length` is sufficient. -/
def stripCommentsF : ℕ → List Char → List Char
  | _, [] => []
  | 0, l => l
  | fuel + 1, c :: rest =>
    if ['<', '!', '-', '-'].isPrefixOf (c :: rest) then
      match dropToCommentEnd ((c :: rest).drop 4) with
      | some after => stripCommentsF fuel after
      | none => c :: stripCommentsF fuel rest
    else c :: stripCommentsF fuel rest

/-- Comment-stripped HTML, feeding the brute-force heading counts. -/
def stripComments (l : List Char) : List Char := stripCommentsF l.length l

/-- Count non-overlapping case-insensitive occurrences of `p :: ps`
(model of `(htmlContent.match(/<h2/gi) || []).length`, audit.js line 267).
Fuelled; `l.length` is sufficient. -/
def countSubstrCI (p : Char) (ps : List Char) : ℕ → List Char → ℕ
  | _, [] => 0
  | 0, _ => 0
  | fuel + 1, c :: rest =>
    if lcLeads (p :: ps) (c :: rest) then
      1 + countSubstrCI p ps fuel (rest.drop ps.length)
    else countSubstrCI p ps fuel rest

/-- The tag-character lists for the six heading levels. -/
def hTag (n : ℕ) : List Char := ['h', Char.ofNat (48 + n)]

/-- Regex-strategy count for heading level `n` (`hNMatches.length`). -/
def regexHeadingCount (n : ℕ) (html : String) : ℕ :=
  (tagMatches (hTag n) html).length

/-- Brute-force strategy (audit.js lines 234–247): the same regex applied to
the comment-stripped HTML; computed only for h1 and h2. -/
def bruteHeadingCount (n : ℕ) (html : String) : ℕ :=
  let s := stripComments html.toList
  (tagScanF (hTag n) s.length s).length

/-- Raw-substring strategy (audit.js lines 267–268): occurrences of `<hN`
case-insensitively; computed only for h2 and h3. -/
def rawOpenCount (n : ℕ) (html : String) : ℕ :=
  countSubstrCI '<' (hTag n) html.toList.length html.toList

/-! ### Stripping enclosed tags from the first h1 match (audit.js line 292)

`h1Matches[0].replace(/<\/?[^>]+(>|$)/g, '')`: at each position the regex
matches `<`, an optional `/` (tried first, with backtracking), then one or
more non-`>` characters, then `>` or end of input. -/

/-- The `[^>]+(>|$)` part: needs at least one non-`>` character, then either
a `>` (consumed) or the end of the input. -/
def tagBodyAt : List Char → Option (List Char)
  | [] => none
  | c :: rest =>
    if c = '>' then none
    else
      match (rest.dropWhile (fun d => !(d = '>'))) with
      | [] => some []
      | _ :: r => some r

/-- Match `<\/?[^>]+(>|$)` at the head of the input. -/
def stripTagMatchAt : List Char → Option (List Char)
  | '<' :: '/' :: rest =>
    match tagBodyAt rest with
    | some r => some r
    | none => tagBodyAt ('/' :: rest)
  | '<' :: rest => tagBodyAt rest
  | _ => none

/-- Global replace of `/<\/?[^>]+(>|$)/g` with the empty string.  Fuelled;
`l.length` is sufficient. -/
def stripHtmlTagsF : ℕ → List Char → List Char
  | _, [] => []
  | 0, l => l
  | fuel + 1, c :: rest =>
    match stripTagMatchAt (c :: rest) with
    | some after => stripHtmlTagsF fuel after
    | none => c :: stripHtmlTagsF fuel rest

/-- Remove every HTML tag span, as audit.js does to the first h1 match. -/
def stripHtmlTags (l : List Char) : List Char := stripHtmlTagsF l.length l

/-! ### Data model: DOM facts and network-probe results

The cheerio selector results are external-library outputs; they enter the
embedding as one record per analyzed page. -/

/-- Results of every cheerio (`$`) query the handler performs on the parsed
document. -/
structure DomFacts where
  titleRaw : String
  metaDescription : String
  viewportMeta : String
  h1 : ℕ
  h2 : ℕ
  h3 : ℕ
  h4 : ℕ
  h5 : ℕ
  h6 : ℕ
  imgCount : ℕ
  imgWithAltCount : ℕ
  internalLinks : ℕ
  externalLinks : ℕ
  canonicalUrl : String
  robotsMeta : String
  keywordsMeta : String
  bodyText : String
  scriptCount : ℕ
  cssCount : ℕ
  inlineStyles : ℕ
  totalVideos : ℕ
  structuredDataCount : ℕ
  openGraphTags : ℕ
  twitterTags : ℕ
  hasPreload : Bool
  hasPreconnect : Bool
  hasDnsPrefetch : Bool
  totalResourceHints : ℕ
  imgLazyCount : ℕ
  imgSrcsetCount : ℕ
  hreflangCodes : List String
  relPrev : Bool
  relNext : Bool
  mixedHttpCount : ℕ
  ldJsonValid : List Bool
  deriving DecidableEq

/-- Raw response headers of the security HEAD probe; an empty string models
an absent header (both read as falsy by `Boolean(...)`). -/
structure RawSecHeaders where
  xFrameOptions : String
  contentSecurityPolicy : String
  xXssProtection : String
  strictTransportSecurity : String
  referrerPolicy : String
  permissionsPolicy : String
  featurePolicy : String
  deriving DecidableEq

/-- The six-boolean profile produced by `checkSecurityHeaders`
(audit.js lines 372–388). -/
structure SecurityHeaders where
  hasXFrameOptions : Bool
  hasContentSecurityPolicy : Bool
  hasXXSSProtection : Bool
  hasStrictTransportSecurity : Bool
  hasReferrerPolicy : Bool
  hasPermissionsPolicy : Bool
  deriving DecidableEq

/-- Model of `checkSecurityHeaders`: `none` models the HEAD request failing
at the network level, in which case the source catch block returns `{}`,
whose missing fields read as `false` everywhere downstream. -/
def checkSecurityHeaders : Option RawSecHeaders → SecurityHeaders
  | none => ⟨false, false, false, false, false, false⟩
  | some h =>
    ⟨h.xFrameOptions != "", h.contentSecurityPolicy != "",
     h.xXssProtection != "", h.strictTransportSecurity != "",
     h.referrerPolicy != "",
     h.permissionsPolicy != "" || h.featurePolicy != ""⟩

/-- Result of `fetchRobotsTxt` (audit.js lines 465–475); `found` models the
source's `exists` field (`exists` is a Lean keyword). -/
structure RobotsInfo where
  found : Bool
  disallows : List String
  status : Option ℕ
  errMsg : Option String
  deriving DecidableEq

/-- Model of `fetchRobotsTxt`: the argument is the outcome of the GET for
`{origin}/robots.txt` — `Except.error` models a thrown network error,
`Except.ok (status, body)` a completed response (every status accepted,
`validateStatus: () => true`). -/
def fetchRobotsTxt : Except String (ℕ × String) → RobotsInfo
  | .error e => ⟨false, [], none, some e⟩
  | .ok (status, body) =>
    if status ≥ 400 then ⟨false, [], some status, none⟩
    else
      ⟨true,
       ((jsLines body.toList).filter
         (fun l => ("disallow".toList).isPrefixOf (lcList l))).map
         (fun l => String.mk l),
       some status, none⟩

/-- The `url` field shape the XML parser extracted from the sitemap
(`parsed?.urlset?.url`): absent, a single entry, or an array. -/
inductive XmlUrlField where
  | absent : XmlUrlField
  | single : XmlUrlField
  | array : ℕ → XmlUrlField
  deriving DecidableEq

/-- Result of `fetchXmlSitemap` (audit.js lines 477–490); `found` models the
source's `exists` field. -/
structure SitemapInfo where
  found : Bool
  urlCount : ℕ
  status : Option ℕ
  errMsg : Option String
  deriving DecidableEq

/-- Model of `fetchXmlSitemap`: the argument carries the GET outcome for
`{origin}/sitemap.xml` together with the external XML parser result
(`XmlUrlField.absent` also covers a parse failure, which the source
swallows into `{}`). -/
def fetchXmlSitemap : Except String (ℕ × XmlUrlField) → SitemapInfo
  | .error e => ⟨false, 0, none, some e⟩
  | .ok (status, parsed) =>
    if status ≥ 400 then ⟨false, 0, some status, none⟩
    else
      ⟨true,
       (match parsed with
        | .absent => 0
        | .single => 1
        | .array n => n),
       none, none⟩

/-- Result of `validateHreflang` (audit.js lines 492–500); the
zero-links case has `hasHreflang = false` and the other fields at their
JS-undefined-as-default values. -/
structure HreflangInfo where
  hasHreflang : Bool
  count : ℕ
  errors : List String
  deriving DecidableEq

/-- Model of `validateHreflang` over the collected `hreflang` attribute
values. -/
def validateHreflang (codes : List String) : HreflangInfo :=
  if codes.isEmpty then ⟨false, 0, []⟩
  else
    ⟨true, codes.length,
     if codes.contains "x-default" then [] else ["Missing x-default hreflang"]⟩

/-- Result of `checkPagination` (audit.js lines 502–506). -/
structure PaginationInfo where
  prev : Bool
  next : Bool
  paginated : Bool
  deriving DecidableEq

/-- Result of `checkImageSizes` (audit.js lines 508–523). -/
structure ImageSizeInfo where
  sampled : ℕ
  avgSize : ℤ
  deriving DecidableEq

/-- Model of `checkImageSizes`: each list entry is the outcome of one loop
iteration over an image — `none` when the iteration was skipped (missing
`src`, unresolvable URL, or a thrown HEAD request), `some n` when a HEAD
response arrived and `parseInt(contentLength || '0')` produced `n`.
Only the first five images are visited (`slice(0, 5)`). -/
def checkImageSizes (probes : List (Option ℕ)) : ImageSizeInfo :=
  let folded := (probes.take 5).foldl
    (fun (tc : ℕ × ℕ) p =>
      match p with
      | some len => if len ≠ 0 then (tc.1 + len, tc.2 + 1) else tc
      | none => tc) (0, 0)
  ⟨folded.2, if folded.2 ≠ 0 then round ((folded.1 : ℚ) / folded.2) else 0⟩

/-- Result of `evaluateCaching` (audit.js lines 525–530). -/
structure CachingInfo where
  cacheControl : String
  maxAgeSeconds : ℕ
  good : Bool
  deriving DecidableEq

/-- Parse a maximal run of ASCII digits into a number (the
`parseInt(match[1], 10)` step). -/
def digitsVal : List Char → ℕ → ℕ
  | [], acc => acc
  | c :: rest, acc =>
    if c.isDigit then digitsVal rest (acc * 10 + (c.toNat - 48)) else acc

/-- Try `/max-age=(\d+)/` at the head of the input. -/
def maxAgeAt (l : List Char) : Option ℕ :=
  if ("max-age=".toList).isPrefixOf l then
    match l.drop 8 with
    | c :: rest =>
      if c.isDigit then some (digitsVal (rest.takeWhile Char.isDigit) (c.toNat - 48))
      else none
    | [] => none
  else none

/-- First match of `/max-age=(\d+)/`, or 0 — the `maxAge` computation of
`evaluateCaching`. -/
def findMaxAge : List Char → ℕ
  | [] => 0
  | c :: rest =>
    match maxAgeAt (c :: rest) with
    | some n => n
    | none => findMaxAge rest

/-- Model of `evaluateCaching` over the primary response's
`cache-control` header value (empty string when absent). -/
def evaluateCaching (cacheControl : String) : CachingInfo :=
  let maxAge := findMaxAge cacheControl.toList
  ⟨cacheControl, maxAge, maxAge > 2592000⟩

/-- Result of `mixedContentCheck` (audit.js lines 532–536). -/
structure MixedContentInfo where
  mixedCount : ℕ
  deriving DecidableEq

/-- Model of `mixedContentCheck`: `domMixedCount` is the cheerio count of
`http://`-sourced images/scripts/stylesheets/iframes; it is consulted only
when the page URL starts with `https://`. -/
def mixedContentCheck (pageUrl : String) (domMixedCount : ℕ) : MixedContentInfo :=
  if !(jsStartsWith pageUrl "https://") then ⟨0⟩ else ⟨domMixedCount⟩

/-- Model of `validateStructuredData`: count the ld+json blocks whose
`JSON.parse` (external builtin, outcome supplied per block) failed. -/
def validateStructuredData (ldJsonValid : List Bool) : ℕ :=
  (ldJsonValid.filter (fun b => !b)).length

/-! ### Title cleanup (audit.js lines 134–142) -/

/-- Model of `s.split(pat)[0]`: the prefix before the first occurrence of
`pat` (the whole string when `pat` does not occur). -/
def takeBeforeSeq (pat : List Char) : List Char → List Char
  | [] => []
  | c :: rest =>
    if pat.isPrefixOf (c :: rest) then [] else c :: takeBeforeSeq pat rest

/-- The separator class `[\|\-\.]` of the trailing-separator regex. -/
def isSepChar (c : Char) : Bool := c = '|' || c = '-' || c = '.'

/-- Model of `title.replace(/[\|\-\.]+\s*$/, '')`: remove one trailing run
of separators followed by optional whitespace at the end of the string. -/
def stripTrailingSeps (l : List Char) : List Char :=
  let r := l.reverse
  let r1 := r.dropWhile isJsSpace
  match r1 with
  | c :: _ => if isSepChar c then (r1.dropWhile isSepChar).reverse else l
  | [] => l

/-- The title cleanup of audit.js lines 134–142: when the extracted title
mentions the tool name, keep only the part before it and strip trailing
separators. -/
def cleanTitle (t : String) : String :=
  if jsIncludes t "SEO Audit Tool" then
    let t1 := jsTrim (takeBeforeSeq ("SEO Audit Tool".toList) t.toList)
    String.mk (jsTrim (stripTrailingSeps t1))
  else t

/-! ### Keyword density (audit.js lines 344–358) -/

/-- The stoplist of line 349. -/
def stopWords : List (List Char) :=
  ["and".toList, "the".toList, "for".toList, "with".toList]

/-- Model of the keyword-density estimate.  The occurrence count of the
first candidate keyword models `bodyText.match(new RegExp(keyword, 'gi'))`
for keywords without regex metacharacters (counting non-overlapping
case-insensitive literal occurrences); the denominator mirrors
`bodyText.split(/\s+/).length || 1`. -/
def keywordDensityOf (title bodyText : String) : ℚ :=
  if title ≠ "" ∧ bodyText ≠ "" then
    let ws := jsSplitWs (lcList title.toList)
    let candidates :=
      (ws.filter (fun w => w.length > 3)).filter (fun w => !(stopWords.contains w))
    match candidates with
    | [] => 0
    | kw :: _ =>
      let occurrences :=
        match kw with
        | [] => 0
        | p :: ps => countSubstrCI p ps bodyText.toList.length bodyText.toList
      let wordCount := (jsSplitWs bodyText.toList).length
      ((occurrences : ℚ) / (if wordCount = 0 then 1 else wordCount)) * 100
  else 0

/-! ### Heading reconciliation (audit.js lines 232–299) -/

/-- The final per-level heading counts of the report. -/
structure HeadingCounts where
  h1 : ℕ
  h2 : ℕ
  h3 : ℕ
  h4 : ℕ
  h5 : ℕ
  h6 : ℕ
  deriving DecidableEq

/-- The complete heading-count reconciliation: cheerio counts come from the
DOM facts; regex, brute-force (comment-stripped, h1/h2 only) and raw
substring (h2/h3 only) counts are computed from the raw HTML.  Method 5
overwrites the cheerio count when the brute-force count strictly exceeds
both the cheerio and the regex count (lines 249–257); the final counts take
`Math.max` over the remaining strategies (lines 271–277). -/
def headingCountsOf (html : String) (dom : DomFacts) : HeadingCounts :=
  let h1M := regexHeadingCount 1 html
  let h2M := regexHeadingCount 2 html
  let h3M := regexHeadingCount 3 html
  let h4M := regexHeadingCount 4 html
  let h5M := regexHeadingCount 5 html
  let h6M := regexHeadingCount 6 html
  let bruteH1 := bruteHeadingCount 1 html
  let bruteH2 := bruteHeadingCount 2 html
  let h1Cheerio := if bruteH1 > dom.h1 ∧ bruteH1 > h1M then bruteH1 else dom.h1
  let h2Cheerio := if bruteH2 > dom.h2 ∧ bruteH2 > h2M then bruteH2 else dom.h2
  let rawH2 := rawOpenCount 2 html
  let rawH3 := rawOpenCount 3 html
  ⟨max h1Cheerio h1M,
   max (max h2Cheerio h2M) rawH2,
   max (max dom.h3 h3M) rawH3,
   max dom.h4 h4M,
   max dom.h5 h5M,
   max dom.h6 h6M⟩

/-- First-H1 text (audit.js lines 288–293): taken from the first regex
match with enclosed tags stripped, only when the final count is positive
and a first regex match exists. -/
def h1TextOf (html : String) (dom : DomFacts) : String :=
  match tagMatches (hTag 1) html with
  | [] => ""
  | m :: _ =>
    if (headingCountsOf html dom).h1 > 0 then String.mk (jsTrim (stripHtmlTags m))
    else ""

/-! ### Scoring (audit.js lines 420–453) -/

/-- Model of `calculateTechnicalScore`. -/
def calculateTechnicalScore (hasSSL hasMobileViewport : Bool)
    (canonicalUrl robotsMeta : String) (totalResourceHints : ℕ)
    (securityHeaders : SecurityHeaders) : ℕ :=
  let score :=
    (if hasSSL then 20 else 0) +
    (if hasMobileViewport then 15 else 0) +
    (if canonicalUrl ≠ "" then 10 else 0) +
    (if !(jsIncludes robotsMeta "noindex") then 15 else 0) +
    (if totalResourceHints ≠ 0 then 10 else 0) +
    (if securityHeaders.hasContentSecurityPolicy then 10 else 0)
  min score 100

/-- Model of `calculateContentScore`. -/
def calculateContentScore (textToCodeRatio : ℚ) (h1Count h2Count : ℕ)
    (keywordDensity : ℚ) : ℕ :=
  let score :=
    (if textToCodeRatio > 0.1 then 20 else 0) +
    (if h1Count = 1 then 20 else 0) +
    (if h2Count ≥ 2 then 10 else 0) +
    (if keywordDensity > 0.5 ∧ keywordDensity < 5 then 10 else 0)
  min score 100

/-- `Math.max(100 - (scriptCount + cssCount) * 2, 0)` (audit.js line 452). -/
def performanceScoreOf (scriptCount cssCount : ℕ) : ℤ :=
  max (100 - ((scriptCount : ℤ) + (cssCount : ℤ)) * 2) 0

/-- Model of `calculateWeightedScore` in exact rational arithmetic
(`Math.round(t * 0.4 + c * 0.4 + p * 0.2)`); `round` matches `Math.round`
(half rounds up). -/
def calculateWeightedScore (technical content performance : ℤ) : ℤ :=
  round ((technical : ℚ) * 0.4 + (content : ℚ) * 0.4 + (performance : ℚ) * 0.2)

/-! ### Report assembly (audit.js lines 445–632) -/

/-- The `analysis` object of the JSON response, together with the sibling
`recommendations` array. -/
structure AnalysisReport where
  url : String
  title : String
  metaDescription : String
  h1Text : String
  h1Count : ℕ
  h2Count : ℕ
  h3Count : ℕ
  h4Count : ℕ
  h5Count : ℕ
  h6Count : ℕ
  imgCount : ℕ
  imgWithAltCount : ℕ
  internalLinks : ℕ
  externalLinks : ℕ
  canonicalUrl : String
  robotsMeta : String
  keywordsMeta : String
  headings : HeadingCounts
  hasSSL : Bool
  hasMobileViewport : Bool
  viewportMeta : String
  scriptCount : ℕ
  cssCount : ℕ
  inlineStyles : ℕ
  textToCodeRatio : ℚ
  keywordDensity : ℚ
  totalImages : ℕ
  totalVideos : ℕ
  structuredDataCount : ℕ
  socialMediaTags : ℕ
  openGraphTags : ℕ
  twitterTags : ℕ
  technicalScore : ℕ
  contentScore : ℕ
  performanceScore : ℤ
  overallScore : ℤ
  robotsInfo : RobotsInfo
  sitemapInfo : SitemapInfo
  hreflangInfo : HreflangInfo
  paginationInfo : PaginationInfo
  imageSizeInfo : ImageSizeInfo
  cachingInfo : CachingInfo
  mixedContentInfo : MixedContentInfo
  structuredDataValidation : ℕ
  timestamp : String
  recommendations : List String
  deriving DecidableEq

/-- Everything one request consumes besides the clock: the request URL, the
fetched HTML, the external DOM parser facts, and the outcome of every
auxiliary network call. -/
structure AnalyzeInputs where
  url : String
  html : String
  dom : DomFacts
  secProbe : Option RawSecHeaders
  robotsFetch : Except String (ℕ × String)
  sitemapFetch : Except String (ℕ × XmlUrlField)
  imageProbes : List (Option ℕ)
  cacheControl : String

/-- The success path of the POST /api/analyze handler: every extractor,
probe consumer, scorer and the recommendation generator, assembled into the
response object (audit.js lines 130–632).  The timestamp is the only
clock-dependent datum and is passed in explicitly. -/
def analyze (I : AnalyzeInputs) (timestamp : String) : AnalysisReport :=
  let title := cleanTitle I.dom.titleRaw
  let counts := headingCountsOf I.html I.dom
  let h1Text := h1TextOf I.html I.dom
  let hasSSL := jsStartsWith I.url "https://"
  let textToCodeRatio := ((I.dom.bodyText.toList.length : ℚ)) / ((I.html.toList.length : ℚ))
  let keywordDensity := keywordDensityOf title I.dom.bodyText
  let socialMediaTags := I.dom.openGraphTags + I.dom.twitterTags
  let hasMobileViewport := jsIncludes I.dom.viewportMeta "width=device-width"
  let securityHeaders := checkSecurityHeaders I.secProbe
  let technicalScore := calculateTechnicalScore hasSSL hasMobileViewport
    I.dom.canonicalUrl I.dom.robotsMeta I.dom.totalResourceHints securityHeaders
  let contentScore := calculateContentScore textToCodeRatio counts.h1 counts.h2 keywordDensity
  let performanceScore := performanceScoreOf I.dom.scriptCount I.dom.cssCount
  let overallScore := calculateWeightedScore technicalScore contentScore performanceScore
  let robotsInfo := fetchRobotsTxt I.robotsFetch
  let sitemapInfo := fetchXmlSitemap I.sitemapFetch
  let hreflangInfo := validateHreflang I.dom.hreflangCodes
  let paginationInfo : PaginationInfo :=
    ⟨I.dom.relPrev, I.dom.relNext, I.dom.relPrev || I.dom.relNext⟩
  let imageSizeInfo := checkImageSizes I.imageProbes
  let cachingInfo := evaluateCaching I.cacheControl
  let mixedContentInfo := mixedContentCheck I.url I.dom.mixedHttpCount
  let sdErrors := validateStructuredData I.dom.ldJsonValid
  let recommendations :=
    (if !hasMobileViewport then ["Add a viewport meta tag for mobile responsiveness"] else []) ++
    (if counts.h1 = 0 then ["Add at least one H1 heading"] else []) ++
    (if I.dom.imgWithAltCount < I.dom.imgCount then
       ["Add alt text to " ++ toString (I.dom.imgCount - I.dom.imgWithAltCount) ++ " images"]
     else []) ++
    (if keywordDensity < 0.5 then ["Use your primary keyword more frequently in body copy"] else []) ++
    (if I.dom.structuredDataCount = 0 then ["Implement schema.org structured data"] else []) ++
    (if robotsInfo.found then [] else ["Add a robots.txt"]) ++
    (if sitemapInfo.found then [] else ["Add a sitemap.xml and reference it in robots.txt"]) ++
    (if hreflangInfo.errors.isEmpty then []
     else ["Fix hreflang issues: " ++ joinComma hreflangInfo.errors]) ++
    (if mixedContentInfo.mixedCount ≠ 0 then
       [toString mixedContentInfo.mixedCount ++ " insecure (HTTP) assets found on HTTPS page"]
     else []) ++
    (if cachingInfo.good then [] else ["Serve static assets with far-future Cache-Control headers"]) ++
    (if sdErrors ≠ 0 then [toString sdErrors ++ " structured-data blocks contain invalid JSON"] else [])
  { url := I.url
    title := title
    metaDescription := I.dom.metaDescription
    h1Text := h1Text
    h1Count := counts.h1
    h2Count := counts.h2
    h3Count := counts.h3
    h4Count := counts.h4
    h5Count := counts.h5
    h6Count := counts.h6
    imgCount := I.dom.imgCount
    imgWithAltCount := I.dom.imgWithAltCount
    internalLinks := I.dom.internalLinks
    externalLinks := I.dom.externalLinks
    canonicalUrl := I.dom.canonicalUrl
    robotsMeta := I.dom.robotsMeta
    keywordsMeta := I.dom.keywordsMeta
    headings := counts
    hasSSL := hasSSL
    hasMobileViewport := hasMobileViewport
    viewportMeta := I.dom.viewportMeta
    scriptCount := I.dom.scriptCount
    cssCount := I.dom.cssCount
    inlineStyles := I.dom.inlineStyles
    textToCodeRatio := textToCodeRatio
    keywordDensity := keywordDensity
    totalImages := I.dom.imgCount
    totalVideos := I.dom.totalVideos
    structuredDataCount := I.dom.structuredDataCount
    socialMediaTags := socialMediaTags
    openGraphTags := I.dom.openGraphTags
    twitterTags := I.dom.twitterTags
    technicalScore := technicalScore
    contentScore := contentScore
    performanceScore := performanceScore
    overallScore := overallScore
    robotsInfo := robotsInfo
    sitemapInfo := sitemapInfo
    hreflangInfo := hreflangInfo
    paginationInfo := paginationInfo
    imageSizeInfo := imageSizeInfo
    cachingInfo := cachingInfo
    mixedContentInfo := mixedContentInfo
    structuredDataValidation := sdErrors
    timestamp := timestamp
    recommendations := recommendations }

/-! ### The request handler wrapper (audit.js lines 99–656) -/

/-- A JSON value in the request body `url` field: a string, or any
non-string value (all of which fail the `typeof url !== 'string'` test, or
the `!url` test in the falsy cases). -/
inductive JsVal where
  | str : String → JsVal
  | nonString : JsVal
  deriving DecidableEq

/-- The validation of audit.js lines 106–109: `!url || typeof url !==
'string'` — rejects a missing field, any non-string, and the empty string
(the only falsy string). -/
def urlIsInvalid : Option JsVal → Bool
  | none => true
  | some .nonString => true
  | some (.str s) => s == ""

/-- Failure modes of the primary page fetch, as distinguished by the catch
block of audit.js lines 634–655. -/
inductive FetchErr where
  | connRefused : FetchErr
  | httpStatus : ℕ → String → FetchErr
  | other : String → FetchErr
  deriving DecidableEq

/-- The externally observable outcome of one POST /api/analyze request. -/
structure HandlerResult where
  status : ℕ
  networkAttempted : Bool
  report : Option AnalysisReport
  deriving DecidableEq

/-- The request handler: validate the `url` body field, then (only when it
passes) perform the primary fetch; a connection-level failure maps to 400,
an upstream HTTP error mirrors the upstream status, and any other fetch
failure maps to 500 (audit.js lines 99–655). -/
def handler (urlField : Option JsVal) (fetch : Except FetchErr AnalyzeInputs)
    (timestamp : String) : HandlerResult :=
  if urlIsInvalid urlField then ⟨400, false, none⟩
  else
    match fetch with
    | .ok I => ⟨200, true, some (analyze I timestamp)⟩
    | .error .connRefused => ⟨400, true, none⟩
    | .error (.httpStatus s _) => ⟨s, true, none⟩
    | .error (.other _) => ⟨500, true, none⟩

/-! ### Helper lemmas -/

/-- Folding the method-5 conditional overwrite into a `Math.max` chain:
overwriting the cheerio count with the brute-force count exactly when the
latter strictly exceeds both other strategies, and then taking the maximum
with the regex count, is the three-way maximum. -/
lemma reconcile_max (c r b : ℕ) :
    max (if b > c ∧ b > r then b else c) r = max (max c r) b := by
  split_ifs <;> omega

lemma headingCountsOf_h1 (html : String) (dom : DomFacts) :
    (headingCountsOf html dom).h1 =
      max (max dom.h1 (regexHeadingCount 1 html)) (bruteHeadingCount 1 html) := by
  simp only [headingCountsOf]
  exact reconcile_max _ _ _

lemma headingCountsOf_h2 (html : String) (dom : DomFacts) :
    (headingCountsOf html dom).h2 =
      max (max (max dom.h2 (regexHeadingCount 2 html)) (bruteHeadingCount 2 html))
        (rawOpenCount 2 html) := by
  simp only [headingCountsOf]
  rw [reconcile_max]

lemma headingCountsOf_h3 (html : String) (dom : DomFacts) :
    (headingCountsOf html dom).h3 =
      max (max dom.h3 (regexHeadingCount 3 html)) (rawOpenCount 3 html) := by
  simp only [headingCountsOf]

lemma headingCountsOf_h4 (html : String) (dom : DomFacts) :
    (headingCountsOf html dom).h4 = max dom.h4 (regexHeadingCount 4 html) := by
  simp only [headingCountsOf]

lemma headingCountsOf_h5 (html : String) (dom : DomFacts) :
    (headingCountsOf html dom).h5 = max dom.h5 (regexHeadingCount 5 html) := by
  simp only [headingCountsOf]

lemma headingCountsOf_h6 (html : String) (dom : DomFacts) :
    (headingCountsOf html dom).h6 = max dom.h6 (regexHeadingCount 6 html) := by
  simp only [headingCountsOf]

lemma calculateTechnicalScore_le (a b : Bool) (c d : String) (e : ℕ)
    (f : SecurityHeaders) : calculateTechnicalScore a b c d e f ≤ 100 :=
  Nat.min_le_right _ _

lemma calculateContentScore_le (a : ℚ) (b c : ℕ) (d : ℚ) :
    calculateContentScore a b c d ≤ 100 :=
  Nat.min_le_right _ _

lemma performanceScoreOf_bounds (s c : ℕ) :
    0 ≤ performanceScoreOf s c ∧ performanceScoreOf s c ≤ 100 := by
  unfold performanceScoreOf
  exact ⟨le_max_right _ _, max_le (by omega) (by norm_num)⟩

lemma calculateWeightedScore_bounds (t c p : ℤ)
    (h1 : 0 ≤ t) (h2 : t ≤ 100) (h3 : 0 ≤ c) (h4 : c ≤ 100)
    (h5 : 0 ≤ p) (h6 : p ≤ 100) :
    0 ≤ calculateWeightedScore t c p ∧ calculateWeightedScore t c p ≤ 100 := by
  unfold calculateWeightedScore
  have ht0 : (0 : ℚ) ≤ (t : ℚ) := by exact_mod_cast h1
  have ht1 : (t : ℚ) ≤ 100 := by exact_mod_cast h2
  have hc0 : (0 : ℚ) ≤ (c : ℚ) := by exact_mod_cast h3
  have hc1 : (c : ℚ) ≤ 100 := by exact_mod_cast h4
  have hp0 : (0 : ℚ) ≤ (p : ℚ) := by exact_mod_cast h5
  have hp1 : (p : ℚ) ≤ 100 := by exact_mod_cast h6
  constructor
  · rw [round_eq]
    exact Int.le_floor.mpr (by push_cast; linarith)
  · rw [round_eq]
    have hlt : (⌊(t : ℚ) * 0.4 + (c : ℚ) * 0.4 + (p : ℚ) * 0.2 + 1 / 2⌋ : ℤ) < 101 :=
      Int.floor_lt.mpr (by push_cast; linarith)
    omega

/-- Whenever the robots probe reports absence, the fixed-order
recommendation generator emits the robots suggestion. -/
lemma robots_rec_mem (I : AnalyzeInputs) (ts : String)
    (h : (fetchRobotsTxt I.robotsFetch).found = false) :
    "Add a robots.txt" ∈ (analyze I ts).recommendations := by
  simp [analyze, h, List.mem_append]

/-! ### Concrete inputs for the witnesses -/

/-- A minimal set of DOM facts: an empty document. -/
def sampleDom : DomFacts where
  titleRaw := ""
  metaDescription := ""
  viewportMeta := ""
  h1 := 0
  h2 := 0
  h3 := 0
  h4 := 0
  h5 := 0
  h6 := 0
  imgCount := 0
  imgWithAltCount := 0
  internalLinks := 0
  externalLinks := 0
  canonicalUrl := ""
  robotsMeta := ""
  keywordsMeta := ""
  bodyText := ""
  scriptCount := 0
  cssCount := 0
  inlineStyles := 0
  totalVideos := 0
  structuredDataCount := 0
  openGraphTags := 0
  twitterTags := 0
  hasPreload := false
  hasPreconnect := false
  hasDnsPrefetch := false
  totalResourceHints := 0
  imgLazyCount := 0
  imgSrcsetCount := 0
  hreflangCodes := []
  relPrev := false
  relNext := false
  mixedHttpCount := 0
  ldJsonValid := []

/-- A minimal complete request input: an http page with every auxiliary
probe failing. -/
def sampleInputs : AnalyzeInputs where
  url := "http://example.com"
  html := ""
  dom := sampleDom
  secProbe := none
  robotsFetch := .error "ENOTFOUND"
  sitemapFetch := .error "ENOTFOUND"
  imageProbes := []
  cacheControl := ""

/-! ### The claims -/

/-- C1: for every HTML input and every DOM-strategy count, each final
heading count returned in the analysis equals the maximum over all
strategies that examined that level — cheerio, regex, comment-stripped
brute force (h1/h2) and raw substring (h2/h3) — and is therefore at least
each individual strategy count. -/
theorem c1_final_heading_counts_are_strategy_max (I : AnalyzeInputs) (ts : String) :
    ((analyze I ts).h1Count =
        max (max I.dom.h1 (regexHeadingCount 1 I.html)) (bruteHeadingCount 1 I.html)
      ∧ (analyze I ts).h2Count =
        max (max (max I.dom.h2 (regexHeadingCount 2 I.html)) (bruteHeadingCount 2 I.html))
          (rawOpenCount 2 I.html)
      ∧ (analyze I ts).h3Count =
        max (max I.dom.h3 (regexHeadingCount 3 I.html)) (rawOpenCount 3 I.html)
      ∧ (analyze I ts).h4Count = max I.dom.h4 (regexHeadingCount 4 I.html)
      ∧ (analyze I ts).h5Count = max I.dom.h5 (regexHeadingCount 5 I.html)
      ∧ (analyze I ts).h6Count = max I.dom.h6 (regexHeadingCount 6 I.html))
    ∧ ((analyze I ts).h1Count ≥ I.dom.h1
      ∧ (analyze I ts).h1Count ≥ regexHeadingCount 1 I.html
      ∧ (analyze I ts).h1Count ≥ bruteHeadingCount 1 I.html
      ∧ (analyze I ts).h2Count ≥ I.dom.h2
      ∧ (analyze I ts).h2Count ≥ regexHeadingCount 2 I.html
      ∧ (analyze I ts).h2Count ≥ bruteHeadingCount 2 I.html
      ∧ (analyze I ts).h2Count ≥ rawOpenCount 2 I.html
      ∧ (analyze I ts).h3Count ≥ I.dom.h3
      ∧ (analyze I ts).h3Count ≥ regexHeadingCount 3 I.html
      ∧ (analyze I ts).h3Count ≥ rawOpenCount 3 I.html
      ∧ (analyze I ts).h4Count ≥ I.dom.h4
      ∧ (analyze I ts).h4Count ≥ regexHeadingCount 4 I.html
      ∧ (analyze I ts).h5Count ≥ I.dom.h5
      ∧ (analyze I ts).h5Count ≥ regexHeadingCount 5 I.html
      ∧ (analyze I ts).h6Count ≥ I.dom.h6
      ∧ (analyze I ts).h6Count ≥ regexHeadingCount 6 I.html) := by
  have p1 : (analyze I ts).h1Count = (headingCountsOf I.html I.dom).h1 := rfl
  have p2 : (analyze I ts).h2Count = (headingCountsOf I.html I.dom).h2 := rfl
  have p3 : (analyze I ts).h3Count = (headingCountsOf I.html I.dom).h3 := rfl
  have p4 : (analyze I ts).h4Count = (headingCountsOf I.html I.dom).h4 := rfl
  have p5 : (analyze I ts).h5Count = (headingCountsOf I.html I.dom).h5 := rfl
  have p6 : (analyze I ts).h6Count = (headingCountsOf I.html I.dom).h6 := rfl
  rw [p1, p2, p3, p4, p5, p6, headingCountsOf_h1, headingCountsOf_h2,
    headingCountsOf_h3, headingCountsOf_h4, headingCountsOf_h5, headingCountsOf_h6]
  omega

/-- C2: the overall score is exactly the rounded fixed-weight combination
`round(0.4 * technical + 0.4 * content + 0.2 * performance)` of the three
computed sub-scores (equivalently, in integer form,
`⌊(4t + 4c + 2p + 5) / 10⌋`). -/
theorem c2_overall_is_weighted_round :
    (∀ (I : AnalyzeInputs) (ts : String),
      (analyze I ts).overallScore =
        round ((0.4 : ℚ) * ((analyze I ts).technicalScore : ℚ)
          + (0.4 : ℚ) * ((analyze I ts).contentScore : ℚ)
          + (0.2 : ℚ) * ((analyze I ts).performanceScore : ℚ)))
    ∧ (∀ t c p : ℤ, calculateWeightedScore t c p =
        ⌊((4 * t + 4 * c + 2 * p + 5 : ℤ) : ℚ) / 10⌋) := by
  constructor
  · intro I ts
    have h : (analyze I ts).overallScore =
        calculateWeightedScore ((analyze I ts).technicalScore : ℤ)
          ((analyze I ts).contentScore : ℤ) (analyze I ts).performanceScore := rfl
    rw [h]
    unfold calculateWeightedScore
    congr 1
    push_cast
    ring
  · intro t c p
    unfold calculateWeightedScore
    rw [round_eq]
    congr 1
    push_cast
    ring

/-- C3: the four scores of every analyzed page lie in the closed interval
0..100. -/
theorem c3_scores_within_bounds (I : AnalyzeInputs) (ts : String) :
    (0 ≤ (analyze I ts).technicalScore ∧ (analyze I ts).technicalScore ≤ 100)
    ∧ (0 ≤ (analyze I ts).contentScore ∧ (analyze I ts).contentScore ≤ 100)
    ∧ (0 ≤ (analyze I ts).performanceScore ∧ (analyze I ts).performanceScore ≤ 100)
    ∧ (0 ≤ (analyze I ts).overallScore ∧ (analyze I ts).overallScore ≤ 100) := by
  have ht : (analyze I ts).technicalScore ≤ 100 := calculateTechnicalScore_le _ _ _ _ _ _
  have hc : (analyze I ts).contentScore ≤ 100 := calculateContentScore_le _ _ _ _
  have ep : (analyze I ts).performanceScore =
      performanceScoreOf I.dom.scriptCount I.dom.cssCount := rfl
  have hp := performanceScoreOf_bounds I.dom.scriptCount I.dom.cssCount
  have eo : (analyze I ts).overallScore =
      calculateWeightedScore ((analyze I ts).technicalScore : ℤ)
        ((analyze I ts).contentScore : ℤ) (analyze I ts).performanceScore := rfl
  have ho := calculateWeightedScore_bounds ((analyze I ts).technicalScore : ℤ)
    ((analyze I ts).contentScore : ℤ) (analyze I ts).performanceScore
    (Int.natCast_nonneg _) (by exact_mod_cast ht)
    (Int.natCast_nonneg _) (by exact_mod_cast hc)
    (by rw [ep]; exact hp.1) (by rw [ep]; exact hp.2)
  refine ⟨⟨Nat.zero_le _, ht⟩, ⟨Nat.zero_le _, hc⟩, ?_, ?_⟩
  · rw [ep]; exact hp
  · rw [eo]; exact ho

/-- C4: when the page URL does not start with `https://`, the
mixed-content check reports zero, whatever the DOM count of
`http://`-sourced resources is. -/
theorem c4_mixed_content_zero_on_non_https (I : AnalyzeInputs) (ts : String)
    (h : jsStartsWith I.url "https://" = false) :
    (analyze I ts).mixedContentInfo.mixedCount = 0 := by
  have e : (analyze I ts).mixedContentInfo =
      mixedContentCheck I.url I.dom.mixedHttpCount := rfl
  rw [e]
  unfold mixedContentCheck
  rw [h]
  rfl

/-- C4 witness: an http page carrying three insecure resources still gets
`mixedCount = 0`. -/
theorem c4_witness :
    jsStartsWith "http://example.com" "https://" = false
    ∧ (analyze { sampleInputs with dom := { sampleDom with mixedHttpCount := 3 } }
        "2024-01-01T00:00:00.000Z").mixedContentInfo.mixedCount = 0 :=
  ⟨by decide,
   c4_mixed_content_zero_on_non_https
     { sampleInputs with dom := { sampleDom with mixedHttpCount := 3 } }
     "2024-01-01T00:00:00.000Z" (by decide)⟩

/-- C5 counterexample: the body value `"not a url"` passes the
`!url || typeof url !== 'string'` validation, so the fetch is attempted;
its invalid-URL failure is the generic error class, and the response status
is 500, not 400. -/
theorem c5_counterexample :
    (handler (some (JsVal.str "not a url"))
      (.error (.other "Invalid URL")) "2024-01-01T00:00:00.000Z").networkAttempted = true
    ∧ (handler (some (JsVal.str "not a url"))
      (.error (.other "Invalid URL")) "2024-01-01T00:00:00.000Z").status = 500
    ∧ ¬ (handler (some (JsVal.str "not a url"))
      (.error (.other "Invalid URL")) "2024-01-01T00:00:00.000Z").status = 400 := by
  decide

/-- C5 (amended): a request whose `url` field is missing, not a string, or
the empty string is answered with 400 and no network call; every other
string — including syntactically invalid URLs — passes validation and the
fetch is attempted. -/
theorem c5_amended_validation :
    (∀ (u : Option JsVal) (f : Except FetchErr AnalyzeInputs) (ts : String),
      urlIsInvalid u = true →
        (handler u f ts).status = 400
        ∧ (handler u f ts).networkAttempted = false
        ∧ (handler u f ts).report = none)
    ∧ (∀ s : String, urlIsInvalid (some (JsVal.str s)) = (s == "")) := by
  constructor
  · intro u f ts h
    unfold handler
    rw [h]
    exact ⟨rfl, rfl, rfl⟩
  · intro s
    rfl

/-- C5 witness: a request with a missing `url` field gets 400 with no
network call attempted. -/
theorem c5_witness :
    urlIsInvalid none = true
    ∧ (handler none (.error (.other "unused")) "2024").status = 400
    ∧ (handler none (.error (.other "unused")) "2024").networkAttempted = false :=
  ⟨by decide,
   (c5_amended_validation.1 none (.error (.other "unused")) "2024" (by decide)).1,
   (c5_amended_validation.1 none (.error (.other "unused")) "2024" (by decide)).2.1⟩

/-- C6: a network-level failure of the security-header HEAD probe yields
the all-false six-boolean profile, and a request whose primary fetch
succeeded is still answered 200 with a full report. -/
theorem c6_security_probe_failure_all_false :
    (checkSecurityHeaders none = ⟨false, false, false, false, false, false⟩)
    ∧ (∀ (u : String) (I : AnalyzeInputs) (ts : String),
        urlIsInvalid (some (JsVal.str u)) = false →
        I.secProbe = none →
          checkSecurityHeaders I.secProbe = ⟨false, false, false, false, false, false⟩
          ∧ (handler (some (JsVal.str u)) (.ok I) ts).status = 200
          ∧ (handler (some (JsVal.str u)) (.ok I) ts).report = some (analyze I ts)) := by
  refine ⟨rfl, ?_⟩
  intro u I ts hu hsec
  refine ⟨by rw [hsec]; rfl, ?_, ?_⟩ <;> simp [handler, hu]

/-- C6 witness: with the probe failing on a concrete request, the profile
is all false and the analysis still answers 200. -/
theorem c6_witness :
    urlIsInvalid (some (JsVal.str "http://example.com")) = false
    ∧ sampleInputs.secProbe = none
    ∧ (checkSecurityHeaders sampleInputs.secProbe = ⟨false, false, false, false, false, false⟩
      ∧ (handler (some (JsVal.str "http://example.com")) (.ok sampleInputs) "2024").status = 200
      ∧ (handler (some (JsVal.str "http://example.com")) (.ok sampleInputs) "2024").report
          = some (analyze sampleInputs "2024")) :=
  ⟨by decide, by decide,
   c6_security_probe_failure_all_false.2 "http://example.com" sampleInputs "2024"
     (by decide) (by decide)⟩

/-- C7: a robots.txt fetch that throws or returns status at least 400
yields `exists = false` and puts the robots suggestion into the
recommendations; a completed fetch with status below 400 yields
`exists = true` with the disallow rules being exactly the response lines
that start, case-insensitively, with `disallow`. -/
theorem c7_robots_probe (e : String) (status : ℕ) (body : String)
    (I : AnalyzeInputs) (ts : String) :
    ((fetchRobotsTxt (.error e)).found = false)
    ∧ (status ≥ 400 → (fetchRobotsTxt (.ok (status, body))).found = false)
    ∧ (I.robotsFetch = .error e →
        "Add a robots.txt" ∈ (analyze I ts).recommendations)
    ∧ (I.robotsFetch = .ok (status, body) → status ≥ 400 →
        "Add a robots.txt" ∈ (analyze I ts).recommendations)
    ∧ (status < 400 →
        (fetchRobotsTxt (.ok (status, body))).found = true
        ∧ (fetchRobotsTxt (.ok (status, body))).disallows =
            ((jsLines body.toList).filter
              (fun l => ("disallow".toList).isPrefixOf (lcList l))).map
              (fun l => String.mk l)) := by
  refine ⟨rfl, ?_, ?_, ?_, ?_⟩
  · intro h
    simp [fetchRobotsTxt, h]
  · intro h
    exact robots_rec_mem I ts (by rw [h]; rfl)
  · intro h hge
    exact robots_rec_mem I ts (by rw [h]; simp [fetchRobotsTxt, hge])
  · intro h
    constructor <;> simp [fetchRobotsTxt, Nat.not_le.mpr h]

/-- C7 witness: a 404 on robots.txt on a concrete request yields
`exists = false` and the robots recommendation. -/
theorem c7_witness :
    (fetchRobotsTxt (.ok (404, ""))).found = false
    ∧ "Add a robots.txt" ∈
        (analyze { sampleInputs with robotsFetch := .ok (404, "") } "2024").recommendations :=
  ⟨(c7_robots_probe "" 404 "" sampleInputs "2024").2.1 (by decide),
   (c7_robots_probe "" 404 "" { sampleInputs with robotsFetch := .ok (404, "") }
     "2024").2.2.2.1 rfl (by decide)⟩

/-- C8: with the HTML, DOM facts and all auxiliary fetch outcomes held
fixed, two runs of the pipeline produce reports that agree on every field
except the timestamp, which is exactly the per-run clock value. -/
theorem c8_two_run_determinism (I : AnalyzeInputs) (ts1 ts2 : String) :
    ({ analyze I ts1 with timestamp := "" } : AnalysisReport)
      = { analyze I ts2 with timestamp := "" }
    ∧ (analyze I ts1).timestamp = ts1 :=
  ⟨rfl, rfl⟩

/-- C9: whenever the regex strategy finds no h1 match in the raw HTML, the
reported h1Text is empty — h1Text is derived exclusively from the first
regex match, even when the final h1 count is positive. -/
theorem c9_h1_text_from_regex_only (I : AnalyzeInputs) (ts : String)
    (h : tagMatches (hTag 1) I.html = []) :
    (analyze I ts).h1Text = "" := by
  have e : (analyze I ts).h1Text = h1TextOf I.html I.dom := rfl
  rw [e]
  unfold h1TextOf
  rw [h]

/-- A page without h1 markup whose DOM strategy nevertheless counted three
h1 elements. -/
def c9Inputs : AnalyzeInputs :=
  { sampleInputs with html := "<p>no heading</p>", dom := { sampleDom with h1 := 3 } }

/-- C9 witness: a page without h1 markup but with a DOM strategy count of
three gets a positive final h1 count and an empty h1Text. -/
theorem c9_witness :
    tagMatches (hTag 1) c9Inputs.html = []
    ∧ (analyze c9Inputs "2024").h1Count = 3
    ∧ (analyze c9Inputs "2024").h1Text = "" :=
  ⟨by decide, by decide, c9_h1_text_from_regex_only c9Inputs "2024" (by decide)⟩

end SeoAudit
